import Mathlib

/-!
Verification of the VectorCheck service (src/main.py) against its
natural-language specification.

The per-page classifier `analyze_vector_content` (src/main.py lines 31-177)
is embedded as a pure Lean function over exact metrics; Python float
arithmetic on the graphics-to-text ratio is modelled exactly by the
rationals.  The HTTP request handler `vector_check` (lines 179-321) is
embedded as a function of the fetch outcome and the per-page extraction
outcomes, returning either an error record (status code and detail, the
payload of a raised HTTPException) or the success document report, paired
with a flag recording whether the temporary file created during the
download is still on disk after the final cleanup block has run.
-/

namespace VectorCheck

/-- Per-page extracted facts, source lines 47-51: the counts of lines,
curves, rectangles and characters reported by the PDF parser, and the
length of the stripped extracted text. -/
structure PageMetrics where
  lineCount : Nat
  curveCount : Nat
  rectCount : Nat
  charCount : Nat
  textLength : Nat
deriving DecidableEq, Repr

/-- Classifier output for one page: the verdict, the list of matched
category names (the source sets the vector_type key to None on the two
short-circuit returns and on non-vector pages, modelled as `none`), and
the human-readable reason.  The source additionally echoes a
vector_elements dictionary repeating the input counts (and the rounded
ratio); it is diagnostic output that no claim refers to and is omitted. -/
structure ClassificationResult where
  isVector : Bool
  vectorTypes : Option (List String)
  reason : String
deriving DecidableEq, Repr

/-- Source line 76: total_vector_elements = line_count + curve_count + rect_count. -/
def totalVectorElements (m : PageMetrics) : Nat :=
  m.lineCount + m.curveCount + m.rectCount

/-- Source line 77: complex_shapes = curve_count + rect_count. -/
def complexShapes (m : PageMetrics) : Nat :=
  m.curveCount + m.rectCount

/-- Source lines 82-85: the graphics-to-text ratio, per 100 characters of
text when there is text, and the bare element total otherwise.  Python
float division is modelled exactly in ℚ. -/
def graphicsToTextRatio (m : PageMetrics) : ℚ :=
  if 0 < m.textLength then
    (totalVectorElements m : ℚ) / ((m.textLength : ℚ) / 100)
  else
    (totalVectorElements m : ℚ)

/-- Source line 54: has_graphics = line_count > 0 or curve_count > 0 or rect_count > 0. -/
def hasGraphics (m : PageMetrics) : Bool :=
  decide (0 < m.lineCount) || decide (0 < m.curveCount) || decide (0 < m.rectCount)

/-- Source lines 90-93 (the float literal 0.5 is the exact rational 1/2). -/
def is_illustration (m : PageMetrics) : Bool :=
  decide (5 ≤ totalVectorElements m) &&
    (decide ((1 : ℚ)/2 < graphicsToTextRatio m) || decide (m.textLength < 200))

/-- Source lines 96-99. -/
def is_technical_drawing (m : PageMetrics) : Bool :=
  decide (10 ≤ m.lineCount) && decide (2 ≤ complexShapes m)

/-- Source lines 102-105. -/
def is_complex_graphics (m : PageMetrics) : Bool :=
  decide (5 ≤ m.curveCount) || (decide (2 ≤ m.curveCount) && decide (5 ≤ m.lineCount))

/-- Source lines 108-112. -/
def is_diagram (m : PageMetrics) : Bool :=
  decide (3 ≤ m.rectCount) && decide (3 ≤ m.lineCount) && decide (8 ≤ totalVectorElements m)

/-- Source lines 118-122 (the float literal 0.1 is the exact rational 1/10). -/
def likelyLayoutOnly (m : PageMetrics) : Bool :=
  decide (totalVectorElements m < 5) && decide (500 < m.textLength) &&
    decide (graphicsToTextRatio m < (1 : ℚ)/10)

/-- Source lines 147-155: the matched category names, in source order. -/
def vectorTypeList (m : PageMetrics) : List String :=
  (if is_illustration m then ["illustration"] else []) ++
  (if is_technical_drawing m then ["technical_drawing"] else []) ++
  (if is_complex_graphics m then ["complex_graphics"] else []) ++
  (if is_diagram m then ["diagram"] else [])

/-- The try-body of analyze_vector_content, source lines 53-170: the
no-graphics short-circuit, the layout-only exclusion, and the final
four-way category decision. -/
def classify (m : PageMetrics) : ClassificationResult :=
  if hasGraphics m = false then
    ⟨false, none, "No vector graphics found - text only"⟩
  else if likelyLayoutOnly m = true then
    ⟨false, none, "Likely layout elements only, not vector illustrations"⟩
  else
    ⟨is_illustration m || is_technical_drawing m || is_complex_graphics m || is_diagram m,
     if is_illustration m || is_technical_drawing m || is_complex_graphics m || is_diagram m then
       some (vectorTypeList m)
     else none,
     if is_illustration m || is_technical_drawing m || is_complex_graphics m || is_diagram m then
       "Vector content detected: " ++ String.intercalate (", ") (vectorTypeList m)
     else "No significant vector content"⟩

/-- analyze_vector_content, source lines 31-177: metrics extraction from
the pdfplumber page object may raise, and the except-branch at lines
172-177 converts any such fault into a non-vector result naming the
fault.  The argument is the outcome of the extraction. -/
def analyze_vector_content : Except String PageMetrics → ClassificationResult
  | Except.ok m => classify m
  | Except.error msg => ⟨false, none, "Error analyzing content: " ++ msg⟩

/-- One entry of the response pages array, source lines 265-273 and
278-285: the effective page number is the caller override when present,
else the natural 1-based index. -/
structure PageReport where
  pageUrl : String
  pageNumber : Int
  isVector : Bool
  vectorTypes : Option (List String)
  reason : String
  originalPageNumber : Option Int
deriving DecidableEq, Repr

/-- The document-level success payload, source lines 290-296.  The
success field is the literal True of line 291. -/
structure DocumentReport where
  success : Bool
  pageCount : Nat
  vectorPagesCount : Nat
  vectorPages : List Int
  pages : List PageReport
deriving DecidableEq, Repr

instance {ε α : Type} [DecidableEq ε] [DecidableEq α] : DecidableEq (Except ε α) := fun a b =>
  match a, b with
  | Except.ok x, Except.ok y =>
      if h : x = y then isTrue (by rw [h])
      else isFalse (by intro hh; cases hh; exact h rfl)
  | Except.ok _, Except.error _ => isFalse (by intro hh; cases hh)
  | Except.error _, Except.ok _ => isFalse (by intro hh; cases hh)
  | Except.error x, Except.error y =>
      if h : x = y then isTrue (by rw [h])
      else isFalse (by intro hh; cases hh; exact h rfl)

/-- One page of the processing loop, source lines 257-285: either the
loop body runs analyze_vector_content on the extraction outcome, or the
body itself raises and the per-page except-branch at lines 275-285
records the fault. -/
inductive PageInput where
  | ok (em : Except String PageMetrics)
  | fault (msg : String)
deriving DecidableEq, Repr

/-- The body of one loop iteration, source lines 258-285: builds the
report entry for page index `idx` (0-based), with the per-page
except-branch producing a non-vector entry naming the fault. -/
def processPage (url : String) (opn : Option Int) (idx : Nat) : PageInput → PageReport
  | PageInput.ok em =>
      let a := analyze_vector_content em
      ⟨url, (match opn with | some n => n | none => ((idx : Int) + 1)),
       a.isVector, a.vectorTypes, a.reason, opn⟩
  | PageInput.fault msg =>
      ⟨url, (match opn with | some n => n | none => ((idx : Int) + 1)),
       false, none, "Error processing page: " ++ msg, opn⟩

/-- The enumerated processing loop, source lines 254-285: one report per
input page, in input order, starting at index `idx`. -/
def aggregatePages (url : String) (opn : Option Int) : Nat → List PageInput → List PageReport
  | _, [] => []
  | idx, p :: rest => processPage url opn idx p :: aggregatePages url opn (idx + 1) rest

/-- Response assembly, source lines 287-296: summary statistics over the
collected page reports and the success payload. -/
def vector_check_process (url : String) (opn : Option Int)
    (inputs : List PageInput) : DocumentReport :=
  ⟨true,
   (aggregatePages url opn 0 inputs).length,
   ((aggregatePages url opn 0 inputs).filter (fun p => p.isVector)).length,
   ((aggregatePages url opn 0 inputs).filter (fun p => p.isVector)).map (fun p => p.pageNumber),
   aggregatePages url opn 0 inputs⟩

/-- The payload of a raised HTTPException: status code and detail string. -/
structure HttpError where
  statusCode : Nat
  detail : String
deriving DecidableEq, Repr

/-- MAX_FILE_SIZE, source line 12: the 50 MB ceiling. -/
def MAX_FILE_SIZE : Nat := 50 * 1024 * 1024

/-- The characters of a URL before its first colon, or `none` when the
URL has no colon. -/
def splitScheme : List Char → Option (List Char)
  | [] => none
  | c :: rest => if c = ':' then some [] else (splitScheme rest).map (fun s => c :: s)

/-- ASCII lower-casing of one character. -/
def charLower (c : Char) : Char :=
  if 'A' ≤ c ∧ c ≤ 'Z' then Char.ofNat (c.toNat + 32) else c

/-- is_valid_url, source lines 14-16: urlparse scheme extraction is
modelled as the lower-cased text before the first colon (urlparse also
restricts the scheme character class, which cannot change the verdict
here since only the schemes http and https are accepted). -/
def is_valid_url (url : String) : Bool :=
  match splitScheme url.data with
  | none => false
  | some s =>
      (s.map charLower = ("http").data) || (s.map charLower = ("https").data)

/-- Whether `pat` occurs as a substring of `s`, modelling the Python
`pat in s` test of source lines 307-309. -/
def strContains (s pat : String) : Bool :=
  decide (2 ≤ (s.splitOn pat).length)

/-- The except requests.RequestException branch, source lines 302-312:
maps the exception message to a 403, 404 or generic 400 response. -/
def mapRequestException (msg : String) : HttpError :=
  if strContains msg ("403") then
    ⟨403, "PDF URL access forbidden - URL may be expired or invalid"⟩
  else if strContains msg ("404") then
    ⟨404, "PDF not found at the provided URL"⟩
  else
    ⟨400, "Failed to download PDF: " ++ msg⟩

/-- The message of the requests.HTTPError raised by
response.raise_for_status() (source line 228) for a 4xx or 5xx status;
the reason phrase of the real message is immaterial here and omitted. -/
def raiseForStatusMessage (status : Nat) (url : String) : String :=
  toString status ++
    (if status < 500 then " Client Error for url: " else " Server Error for url: ") ++ url

/-- str(e) for a caught fastapi HTTPException, following the starlette
HTTPException dunder str, which renders as statusCode colon detail. -/
def strOfHttpExc (e : HttpError) : String :=
  toString e.statusCode ++ ": " ++ e.detail

/-- The except Exception branch, source lines 313-316: any other
exception, which includes every fastapi HTTPException raised inside the
try block (HTTPException subclasses Exception), is re-raised as a 500
whose detail embeds str(e). -/
def unexpectedWrap (e : HttpError) : HttpError :=
  ⟨500, "Unexpected error: " ++ strOfHttpExc e⟩

/-- The outcome of session.get at source lines 212-220: a response (with
status, optional Content-Length header, and the byte sizes of the chunks
iter_content will yield), or one of the request exceptions mapped at
lines 298-312. -/
inductive FetchOutcome where
  | ok (statusCode : Nat) (contentLength : Option Nat) (chunks : List Nat)
  | timeout
  | connectionError
  | requestException (msg : String)
deriving DecidableEq, Repr

/-- The streaming download loop, source lines 242-248: empty keep-alive
chunks are skipped, each chunk adds its size to the running total, and
an HTTPException 413 is raised as soon as the running total exceeds
MAX_FILE_SIZE.  Returns the final total on success. -/
def streamDownload : List Nat → Nat → Except HttpError Nat
  | [], total => Except.ok total
  | c :: rest, total =>
      if c = 0 then streamDownload rest total
      else
        if MAX_FILE_SIZE < total + c then Except.error ⟨413, "PDF file too large"⟩
        else streamDownload rest (total + c)

/-- The /vector-check handler, source lines 179-321, as a function of the
request, the fetch outcome and the per-page extraction outcomes.  The
first component is the response: Except.error carries the HTTPException
that escapes the handler, Except.ok the success payload.  The second
component records whether the temporary file is still on disk after the
finally block (lines 318-321): NamedTemporaryFile with delete=False
(line 241) creates the file on disk, tmp_path is assigned only after the
download loop completes (line 249), and the finally block unlinks only
when tmp_path is set — so an abort inside the download loop leaves the
file behind.  The content-type check at lines 231-233 only prints a
warning and is omitted. -/
def vector_check_run (pdf_url : String) (opn : Option Int)
    (fetch : FetchOutcome) (pages : List PageInput) :
    Except HttpError DocumentReport × Bool :=
  if is_valid_url pdf_url = false then
    (Except.error ⟨400, "Invalid URL format"⟩, false)
  else
    match fetch with
    | FetchOutcome.timeout =>
        (Except.error ⟨408, "Request timeout - PDF download took too long"⟩, false)
    | FetchOutcome.connectionError =>
        (Except.error ⟨502, "Connection error - Could not connect to PDF URL"⟩, false)
    | FetchOutcome.requestException msg =>
        (Except.error (mapRequestException msg), false)
    | FetchOutcome.ok status contentLength chunks =>
        if status = 403 then
          (Except.error (unexpectedWrap ⟨403, "PDF URL access forbidden - URL may be expired"⟩), false)
        else if status = 404 then
          (Except.error (unexpectedWrap ⟨404, "PDF not found at the provided URL"⟩), false)
        else if 400 ≤ status ∧ status < 600 then
          (Except.error (mapRequestException (raiseForStatusMessage status pdf_url)), false)
        else if (match contentLength with | some n => decide (MAX_FILE_SIZE < n) | none => false) then
          (Except.error (unexpectedWrap ⟨413, "PDF file too large"⟩), false)
        else
          match streamDownload chunks 0 with
          | Except.error he => (Except.error (unexpectedWrap he), true)
          | Except.ok _ => (Except.ok (vector_check_process pdf_url opn pages), false)

/-- The list of matched category names contains each name exactly when the
corresponding predicate holds, and is non-empty exactly when some
predicate holds. -/
theorem vectorTypeList_spec (m : PageMetrics) :
    (("illustration") ∈ vectorTypeList m ↔ is_illustration m = true) ∧
    (("technical_drawing") ∈ vectorTypeList m ↔ is_technical_drawing m = true) ∧
    (("complex_graphics") ∈ vectorTypeList m ↔ is_complex_graphics m = true) ∧
    (("diagram") ∈ vectorTypeList m ↔ is_diagram m = true) ∧
    (vectorTypeList m ≠ [] ↔
      (is_illustration m || is_technical_drawing m || is_complex_graphics m ||
        is_diagram m) = true) := by
  unfold vectorTypeList
  cases h1 : is_illustration m <;> cases h2 : is_technical_drawing m <;>
    cases h3 : is_complex_graphics m <;> cases h4 : is_diagram m <;> simp

/-- Every report list produced by the processing loop has one entry per
input page. -/
theorem aggregatePages_length (url : String) (opn : Option Int) (k : Nat)
    (l : List PageInput) : (aggregatePages url opn k l).length = l.length := by
  induction l generalizing k with
  | nil => rfl
  | cons p rest ih => simp [aggregatePages, ih]

/-- The report at position j of the processing loop output is the body of
the loop applied to the input page at position j. -/
theorem aggregatePages_get? (url : String) (opn : Option Int) (k : Nat)
    (l : List PageInput) (j : Nat) :
    (aggregatePages url opn k l).get? j = (l.get? j).map (processPage url opn (k + j)) := by
  induction l generalizing k j with
  | nil => simp [aggregatePages]
  | cons p rest ih =>
    cases j with
    | zero => simp [aggregatePages]
    | succ j =>
      have e : k + 1 + j = k + (j + 1) := by omega
      simp only [aggregatePages, List.get?, ih (k + 1) j, e]

/-- C1: past the no-graphics short-circuit and the layout-only
exclusion, the verdict is exactly the disjunction of the four category
predicates, the vector types are the list of matched category names
(rendered as null for a non-vector page), and that list is non-empty
exactly when the verdict is positive. -/
theorem C1_classification_disjunction (m : PageMetrics)
    (hg : hasGraphics m = true) (hl : likelyLayoutOnly m = false) :
    (classify m).isVector =
      (is_illustration m || is_technical_drawing m || is_complex_graphics m ||
        is_diagram m) ∧
    (classify m).vectorTypes =
      (if (classify m).isVector then some (vectorTypeList m) else none) ∧
    (("illustration") ∈ vectorTypeList m ↔ is_illustration m = true) ∧
    (("technical_drawing") ∈ vectorTypeList m ↔ is_technical_drawing m = true) ∧
    (("complex_graphics") ∈ vectorTypeList m ↔ is_complex_graphics m = true) ∧
    (("diagram") ∈ vectorTypeList m ↔ is_diagram m = true) ∧
    (vectorTypeList m ≠ [] ↔ (classify m).isVector = true) := by
  have hs := vectorTypeList_spec m
  refine ⟨?_, ?_, hs.1, hs.2.1, hs.2.2.1, hs.2.2.2.1, ?_⟩
  · simp [classify, hg, hl]
  · simp [classify, hg, hl]
  · simpa [classify, hg, hl] using hs.2.2.2.2

/-- C1 witness: scenario B of the spec — lines=12, curves=3, rects=1,
textLength=50 passes both exclusions, classifies as vector, and matches
the technical_drawing category. -/
theorem C1_witness :
    hasGraphics (⟨12, 3, 1, 0, 50⟩ : PageMetrics) = true ∧
    likelyLayoutOnly (⟨12, 3, 1, 0, 50⟩ : PageMetrics) = false ∧
    (classify ⟨12, 3, 1, 0, 50⟩).isVector = true ∧
    ("technical_drawing") ∈ vectorTypeList ⟨12, 3, 1, 0, 50⟩ := by
  have hg : hasGraphics (⟨12, 3, 1, 0, 50⟩ : PageMetrics) = true := by decide
  have hl : likelyLayoutOnly (⟨12, 3, 1, 0, 50⟩ : PageMetrics) = false := by
    have h5 : ¬ (totalVectorElements ⟨12, 3, 1, 0, 50⟩ < 5) := by decide
    simp [likelyLayoutOnly, h5]
  have h := C1_classification_disjunction ⟨12, 3, 1, 0, 50⟩ hg hl
  have ht : is_technical_drawing (⟨12, 3, 1, 0, 50⟩ : PageMetrics) = true := by decide
  refine ⟨hg, hl, ?_, (h.2.2.2.1).mpr ht⟩
  rw [h.1]
  simp [ht]

/-- C2: a page with no lines, no curves and no rectangles is never
classified as vector, whatever its text length or character count, and
the reason is the text-only message. -/
theorem C2_text_only (m : PageMetrics) (h1 : m.lineCount = 0)
    (h2 : m.curveCount = 0) (h3 : m.rectCount = 0) :
    (classify m).isVector = false ∧
    (classify m).reason = "No vector graphics found - text only" := by
  have hg : hasGraphics m = false := by simp [hasGraphics, h1, h2, h3]
  simp [classify, hg]

/-- C2 witness: scenario A of the spec — no primitives, 50 characters,
text length 300. -/
theorem C2_witness :
    (classify ⟨0, 0, 0, 50, 300⟩).isVector = false ∧
    (classify ⟨0, 0, 0, 50, 300⟩).reason = "No vector graphics found - text only" :=
  C2_text_only ⟨0, 0, 0, 50, 300⟩ rfl rfl rfl

/-- C3: a page with at least one primitive that satisfies the
layout-only predicate is rejected with the layout-only reason; the
return sits before the category scoring in the source, so no category
predicate can override it. -/
theorem C3_layout_exclusion (m : PageMetrics) (hg : hasGraphics m = true)
    (hl : likelyLayoutOnly m = true) :
    (classify m).isVector = false ∧
    (classify m).reason = "Likely layout elements only, not vector illustrations" := by
  simp [classify, hg, hl]

/-- C3 witness: one line, no curves or rectangles, text length 1500 —
one primitive, ratio 1/15 below 1/10, over 500 characters of text. -/
theorem C3_witness :
    (classify ⟨1, 0, 0, 0, 1500⟩).isVector = false ∧
    (classify ⟨1, 0, 0, 0, 1500⟩).reason = "Likely layout elements only, not vector illustrations" := by
  refine C3_layout_exclusion ⟨1, 0, 0, 0, 1500⟩ (by decide) ?_
  simp only [likelyLayoutOnly, Bool.and_eq_true, decide_eq_true_eq]
  norm_num [graphicsToTextRatio, totalVectorElements]

/-- C7: the classifier body is wrapped in a catch-all handler, so the
function is total over both extraction outcomes: a successful extraction
is classified, and an extraction fault is converted into a non-vector
result whose reason names the fault. -/
theorem C7_analyze_total (em : Except String PageMetrics) :
    (∀ m, em = Except.ok m → analyze_vector_content em = classify m) ∧
    (∀ msg, em = Except.error msg →
      (analyze_vector_content em).isVector = false ∧
      (analyze_vector_content em).reason = ("Error analyzing content: " ++ msg)) := by
  constructor
  · rintro m rfl
    rfl
  · rintro msg rfl
    exact ⟨rfl, rfl⟩

/-- C7 witness: a concrete extraction fault yields a non-vector result
naming the fault. -/
theorem C7_witness :
    (analyze_vector_content (Except.error ("boom"))).isVector = false ∧
    (analyze_vector_content (Except.error ("boom"))).reason =
      ("Error analyzing content: " ++ "boom") :=
  (C7_analyze_total (Except.error ("boom"))).2 ("boom") rfl

/-- C8: the graphics-to-text ratio is the element total divided by a
hundredth of the text length when there is text (equivalently one
hundred times the total over the text length), and is the bare element
total when the text length is zero. -/
theorem C8_ratio_formula (m : PageMetrics) :
    (0 < m.textLength →
      graphicsToTextRatio m = (totalVectorElements m : ℚ) / ((m.textLength : ℚ) / 100) ∧
      graphicsToTextRatio m = 100 * (totalVectorElements m : ℚ) / (m.textLength : ℚ)) ∧
    (m.textLength = 0 → graphicsToTextRatio m = (totalVectorElements m : ℚ)) := by
  constructor
  · intro h
    constructor
    · simp [graphicsToTextRatio, h]
    · unfold graphicsToTextRatio
      rw [if_pos h, div_div_eq_mul_div]
      ring
  · intro h
    simp [graphicsToTextRatio, h]

/-- C8 witness: with 4 elements and 200 characters the ratio follows the
division formula, and with 9 elements and no text it is the bare total. -/
theorem C8_witness :
    graphicsToTextRatio ⟨2, 1, 1, 0, 200⟩ =
      (totalVectorElements ⟨2, 1, 1, 0, 200⟩ : ℚ) /
        (((⟨2, 1, 1, 0, 200⟩ : PageMetrics).textLength : ℚ) / 100) ∧
    graphicsToTextRatio ⟨3, 5, 1, 7, 0⟩ = (totalVectorElements ⟨3, 5, 1, 7, 0⟩ : ℚ) :=
  ⟨((C8_ratio_formula ⟨2, 1, 1, 0, 200⟩).1 (by decide)).1,
   (C8_ratio_formula ⟨3, 5, 1, 7, 0⟩).2 rfl⟩

/-- C10: fewer than five primitives in total refute every one of the
four category predicates, so such a page is never classified as vector —
the layout-only exclusion can only change the reason string. -/
theorem C10_small_total_never_vector (m : PageMetrics)
    (h : totalVectorElements m < 5) :
    (classify m).isVector = false ∧
    is_illustration m = false ∧ is_technical_drawing m = false ∧
    is_complex_graphics m = false ∧ is_diagram m = false := by
  have ht : m.lineCount + m.curveCount + m.rectCount < 5 := by
    simpa [totalVectorElements] using h
  have h1 : is_illustration m = false := by
    have h5 : ¬ (5 ≤ totalVectorElements m) := by omega
    simp [is_illustration, h5]
  have h2 : is_technical_drawing m = false := by
    have h10 : ¬ (10 ≤ m.lineCount) := by omega
    simp [is_technical_drawing, h10]
  have h3 : is_complex_graphics m = false := by
    have h5c : ¬ (5 ≤ m.curveCount) := by omega
    rcases Nat.lt_or_ge m.curveCount 2 with hc | hc
    · have h2c : ¬ (2 ≤ m.curveCount) := by omega
      simp [is_complex_graphics, h5c, h2c]
    · have h5l : ¬ (5 ≤ m.lineCount) := by omega
      simp [is_complex_graphics, h5c, h5l]
  have h4 : is_diagram m = false := by
    have h8 : ¬ (8 ≤ totalVectorElements m) := by omega
    simp [is_diagram, h8]
  refine ⟨?_, h1, h2, h3, h4⟩
  cases hG : hasGraphics m with
  | false => simp [classify, hG]
  | true =>
    cases hL : likelyLayoutOnly m with
    | true => simp [classify, hG, hL]
    | false => simp [classify, hG, hL, h1, h2, h3, h4]

/-- C10 witness: four lines and nothing else — below the five-element
floor, not layout-only (no text at all), and still not vector. -/
theorem C10_witness :
    (classify ⟨4, 0, 0, 0, 0⟩).isVector = false ∧
    is_illustration ⟨4, 0, 0, 0, 0⟩ = false ∧
    is_technical_drawing ⟨4, 0, 0, 0, 0⟩ = false ∧
    is_complex_graphics ⟨4, 0, 0, 0, 0⟩ = false ∧
    is_diagram ⟨4, 0, 0, 0, 0⟩ = false :=
  C10_small_total_never_vector ⟨4, 0, 0, 0, 0⟩ (by decide)

/-- C6: a per-page processing fault is recorded in place as a non-vector
entry whose reason names the fault, every other page is still processed,
the output keeps the input page order position by position, and the
document report still carries success equal to true. -/
theorem C6_fault_tolerant_aggregation (url : String) (opn : Option Int)
    (inputs : List PageInput) (idx : Nat) (msg : String)
    (h : inputs.get? idx = some (PageInput.fault msg)) :
    (vector_check_process url opn inputs).success = true ∧
    (vector_check_process url opn inputs).pages.length = inputs.length ∧
    (∀ j, (vector_check_process url opn inputs).pages.get? j =
      (inputs.get? j).map (processPage url opn j)) ∧
    (vector_check_process url opn inputs).pages.get? idx =
      some (processPage url opn idx (PageInput.fault msg)) ∧
    (processPage url opn idx (PageInput.fault msg)).isVector = false ∧
    (processPage url opn idx (PageInput.fault msg)).reason =
      ("Error processing page: " ++ msg) := by
  have hget : ∀ j, (vector_check_process url opn inputs).pages.get? j =
      (inputs.get? j).map (processPage url opn j) := by
    intro j
    have := aggregatePages_get? url opn 0 inputs j
    simpa [vector_check_process] using this
  refine ⟨rfl, ?_, hget, ?_, rfl, rfl⟩
  · simpa [vector_check_process] using aggregatePages_length url opn 0 inputs
  · rw [hget idx, h]
    rfl

/-- C6 witness: a two-page document whose second page faults — the first
page is still classified, the fault is recorded in position, and the
report carries success equal to true. -/
theorem C6_witness :
    (vector_check_process ("http://example.com/doc.pdf") none
      [PageInput.ok (Except.ok ⟨0, 0, 0, 10, 300⟩), PageInput.fault ("boom")]).success = true ∧
    (vector_check_process ("http://example.com/doc.pdf") none
      [PageInput.ok (Except.ok ⟨0, 0, 0, 10, 300⟩), PageInput.fault ("boom")]).pages.length = 2 ∧
    (vector_check_process ("http://example.com/doc.pdf") none
      [PageInput.ok (Except.ok ⟨0, 0, 0, 10, 300⟩), PageInput.fault ("boom")]).pages.get? 1 =
      some (processPage ("http://example.com/doc.pdf") none 1 (PageInput.fault ("boom"))) ∧
    (processPage ("http://example.com/doc.pdf") none 1 (PageInput.fault ("boom"))).isVector = false := by
  have h := C6_fault_tolerant_aggregation ("http://example.com/doc.pdf") none
    [PageInput.ok (Except.ok ⟨0, 0, 0, 10, 300⟩), PageInput.fault ("boom")] 1 ("boom") rfl
  exact ⟨h.1, h.2.1, h.2.2.2.1, h.2.2.2.2.1⟩

/-- C4: evaluation of the handler when the fetch returns status 404 —
the HTTPException(404) raised inside the try block is caught by the
catch-all except Exception branch and re-raised as a 500, so the
response status is 500 and not the 404 the claim requires (the detail
still mentions not found). -/
theorem C4_fetch_404_response :
    vector_check_run ("http://example.com/doc.pdf") none (FetchOutcome.ok 404 none []) [] =
      (Except.error ⟨500, "Unexpected error: 404: PDF not found at the provided URL"⟩, false) := by
  decide

/-- C5: evaluation of the handler on an over-limit stream with no
Content-Length header — the download loop does abort incrementally once
the running total exceeds the 50 MB ceiling, but the HTTPException(413)
it raises is caught by the catch-all except Exception branch and
re-raised as a 500, so the response status is 500 and not the 413 the
claim requires. -/
theorem C5_size_ceiling_response :
    streamDownload [52428801] 0 = Except.error ⟨413, "PDF file too large"⟩ ∧
    (vector_check_run ("http://example.com/doc.pdf") none
      (FetchOutcome.ok 200 none [52428801]) []).1 =
      Except.error ⟨500, "Unexpected error: 413: PDF file too large"⟩ := by
  constructor
  · decide
  · decide

/-- C9: evaluation of the temp-file flag — on the success path the
finally block removes the temporary file, but when the stream exceeds
the ceiling mid-download the abort happens before tmp_path is assigned,
the finally block finds tmp_path unset, and the file written with
delete=False stays on disk. -/
theorem C9_temp_file_leak :
    (vector_check_run ("http://example.com/doc.pdf") none
      (FetchOutcome.ok 200 none [100]) []).2 = false ∧
    (vector_check_run ("http://example.com/doc.pdf") none
      (FetchOutcome.ok 200 none [52428800, 1]) []).2 = true := by
  constructor
  · decide
  · decide

end VectorCheck
